import Mathlib

/-!
Shallow embedding of `src/transport/src/web.rs` from the repository
`tonic-ws-transport`: the browser (wasm) WebSocket transport adapter.

The whole observable behaviour of the module is captured by one explicit
state record `SysState`:

* the underlying `web_sys::WebSocket` handle: its `readyState` and its four
  event-handler slots (`onopen`, `onerror`, `onmessage`, `onclose`), plus a
  counter of how many times `close()` has been issued on it and the list of
  outgoing frames produced by `send_with_u8_array`;
* the `WebConnection` future: its `wake_fn: Option<WakeFn>` field;
* the `Arc<Handlers>` registration object: its strong count (the closures it
  owns, including the queue sender, are alive exactly while the count is
  positive);
* the `tokio::sync::mpsc::unbounded_channel` inbound queue: its pending
  items, whether the receiver is alive and whether the sender is alive;
* the list of waker tokens that have been woken, in order.

Each Lean function below is translated from the corresponding Rust item.
Host primitives (the browser event loop delivering events to whatever
callback currently occupies a slot, the JS `Uint8Array` constructor, the
channel send/receive primitives) are modelled explicitly and documented at
their definitions.  Rust destructor effects are made explicit: an
assignment `place = value` drops the old content of the place after the
right-hand side has been evaluated, and dropping a value runs its `Drop`
implementation.
-/

/-- The `readyState` of a `web_sys::WebSocket`, i.e. the constants
`WebSocket::CONNECTING`, `WebSocket::OPEN`, `WebSocket::CLOSING`,
`WebSocket::CLOSED` matched on in `WebConnection::poll` and compared
against in the sink methods. -/
inductive ReadyState
  | CONNECTING
  | OPEN
  | CLOSING
  | CLOSED
  deriving DecidableEq, Repr

/-- The transport error relevant to this module:
`tungstenite::Error::ConnectionClosed` (converted into `crate::Error`). -/
inductive TrError
  | connectionClosed
  deriving DecidableEq, Repr

/-- One item of the inbound unbounded channel, whose Rust item type is
`Result<Vec<u8>, Error>`.  Bytes are modelled as `List Nat`. -/
inductive QItem
  | ok (bytes : List Nat)
  | err (e : TrError)
  deriving DecidableEq, Repr

/-- Identity of a callback that can occupy a handler slot of the socket:
either one of the single-shot wake closures created in
`WebConnection::poll` (carrying the waker token it captured), or the
`message_fn` / `close_fn` closures created in `WebClient::new`. -/
inductive Cb
  | wake (token : Nat)
  | messageFn
  | closeFn
  deriving DecidableEq, Repr

/-- The value of a `WakeFn` struct: its `wake_fn : Option<Closure<dyn FnMut()>>`
field, identified by the waker token the closure captured. -/
structure WakeFnVal where
  wakeFn : Option Nat
  deriving DecidableEq, Repr

/-- The observable state of the whole module (socket, future, registration
object, inbound queue, host side effects). -/
structure SysState where
  readyState : ReadyState
  onopen : Option Cb
  onerror : Option Cb
  onmessage : Option Cb
  onclose : Option Cb
  /-- The `wake_fn` field of the pending `WebConnection` future
  (`none` once the future has been dropped or never armed). -/
  connWake : Option WakeFnVal
  /-- Strong count of the `Arc<Handlers>` created in `WebClient::new`;
  `0` before creation and after the last owner has been dropped. -/
  handlersCount : Nat
  /-- Items currently buffered in the unbounded inbound channel, oldest
  first. -/
  queue : List QItem
  /-- Whether the channel receiver (owned by `WebClientStream`) is alive. -/
  consumerAlive : Bool
  /-- Whether the channel sender (owned by the `message_fn` closure inside
  `Handlers`) is alive. -/
  producerAlive : Bool
  /-- How many times `close()` has been issued on the underlying handle. -/
  closeCalls : Nat
  /-- Waker tokens that have been woken, in order. -/
  woken : List Nat
  /-- Frames handed to the host by `send_with_u8_array`, oldest first; one
  entry per call, holding exactly the bytes of that call. -/
  outFrames : List (List Nat)
  deriving DecidableEq, Repr

/-- Host model: a freshly constructed `WebSocket::new(dst)` starts in state
`CONNECTING` with no handlers installed; `set_binary_type(Arraybuffer)`
makes binary frames arrive as array buffers (reflected in `MsgData`). -/
def WebSocket.newState : SysState :=
  { readyState := .CONNECTING
    onopen := none
    onerror := none
    onmessage := none
    onclose := none
    connWake := none
    handlersCount := 0
    queue := []
    consumerAlive := false
    producerAlive := false
    closeCalls := 0
    woken := []
    outFrames := [] }

/-- Effect of `WakeFn::register(ws, wake_fn)`: sets both `onopen` and
`onerror` to the given handler (or clears them when `None`). -/
def WakeFn.registerEffect (cb : Option Cb) (st : SysState) : SysState :=
  { st with onopen := cb, onerror := cb }

/-- Effect of `impl Drop for WakeFn`: when the owned `wake_fn` field is
`Some`, clears `onopen` and `onerror`; otherwise does nothing. -/
def WakeFn.dropEffect (w : WakeFnVal) (st : SysState) : SysState :=
  if w.wakeFn.isSome then { st with onopen := none, onerror := none } else st

/-- Effect of `Handlers::register(ws, message_fn, close_fn)`: sets
`onmessage` to the first handler and both `onerror` and `onclose` to the
second. -/
def Handlers.registerEffect (m c : Option Cb) (st : SysState) : SysState :=
  { st with onmessage := m, onerror := c, onclose := c }

/-- Body of the `close_fn` closure created in `WebClient::new`: it calls
`Handlers::register(ws, None, None)`, which clears all three slots; the
`Handlers` value returned by that call is a temporary holding
`message_fn = None` and `close_fn = None`, dropped at the end of the
statement.  Its `Drop` implementation skips both unset branches (both
fields are `None`) but still runs `self.ws.close()`, issuing one close on
the handle. -/
def closeFnBody (st : SysState) : SysState :=
  let st := Handlers.registerEffect none none st
  { st with closeCalls := st.closeCalls + 1 }

/-- The result of `tokio::sync::mpsc::UnboundedSender::send`: `sent` with
the updated state, or `sendError` when the receiver has been dropped.
Host model of the channel primitive: an unbounded FIFO; a send appends one
item when the receiver is alive and fails otherwise. -/
inductive SendResult
  | sent (st : SysState)
  | sendError
  deriving DecidableEq, Repr

/-- Host model of `tx.send(item)` on the unbounded inbound channel. -/
def txSend (item : QItem) (st : SysState) : SendResult :=
  if st.consumerAlive then .sent { st with queue := st.queue ++ [item] }
  else .sendError

/-- The `data()` payload of a browser `MessageEvent`: an `ArrayBuffer` for
a binary frame (because `set_binary_type(Arraybuffer)` was called), or a
JS string for a text frame. -/
inductive MsgData
  | arrayBuffer (bytes : List Nat)
  | jsString (s : String)
  deriving DecidableEq, Repr

/-- Host model of the JS `ToIndex(ToNumber(string))` conversion performed
by the typed-array constructor when handed a primitive string: a string of
decimal digits denotes that number, any other string converts to `NaN` and
hence to index `0`. -/
def jsToIndex (s : String) : Nat :=
  if s.data ≠ [] ∧ s.data.all Char.isDigit then
    s.data.foldl (fun n c => n * 10 + (c.toNat - 48)) 0
  else 0

/-- Host model of `js_sys::Uint8Array::new(&event.data())`, i.e. the JS
expression `new Uint8Array(data)`: an `ArrayBuffer` argument yields its
bytes; a primitive string argument is treated as a length, yielding that
many zero bytes (zero for non-numeric text). -/
def uint8ArrayNew : MsgData → List Nat
  | .arrayBuffer b => b
  | .jsString s => List.replicate (jsToIndex s) 0

/-- Body of the `message_fn` closure created in `WebClient::new`: builds a
`Uint8Array` from the event data, converts it to a byte vector and sends
it as a success item on the channel; the result of the send is discarded
(`let _ = tx.send(Ok(array.to_vec()))`), so a failed send changes
nothing. -/
def messageFnBody (d : MsgData) (st : SysState) : SysState :=
  match txSend (QItem.ok (uint8ArrayNew d)) st with
  | .sent st2 => st2
  | .sendError => st

/-- Dispatch of a callback invoked by the host event loop.  The wake
closures first call `WakeFn::register(ws, None)` (clearing `onopen` and
`onerror`, so the single-shot closure cannot be invoked again) and then
wake their captured token.  The `close_fn` closure runs `closeFnBody`.
The `message_fn` closure takes the event payload and is dispatched by
`hostMessage` instead; this catch-all arm is never reached for it. -/
def fireCb : Cb → SysState → SysState
  | .wake t, st =>
      let st := { st with onopen := none, onerror := none }
      { st with woken := st.woken ++ [t] }
  | .closeFn, st => closeFnBody st
  | .messageFn, st => st

/-- Host event: the socket finished connecting.  The host sets
`readyState` to `OPEN` and invokes whatever callback currently occupies
the `onopen` slot (none, if the slot is empty). -/
def hostOpen (st : SysState) : SysState :=
  let st := { st with readyState := .OPEN }
  match st.onopen with
  | some c => fireCb c st
  | none => st

/-- Host event: an error occurred on the socket.  The host invokes
whatever callback currently occupies the `onerror` slot. -/
def hostError (st : SysState) : SysState :=
  match st.onerror with
  | some c => fireCb c st
  | none => st

/-- Host event: the socket closed.  The host sets `readyState` to
`CLOSED` and invokes whatever callback currently occupies the `onclose`
slot. -/
def hostClose (st : SysState) : SysState :=
  let st := { st with readyState := .CLOSED }
  match st.onclose with
  | some c => fireCb c st
  | none => st

/-- Host event: a message frame arrived.  The host invokes the callback
currently occupying the `onmessage` slot with the event payload. -/
def hostMessage (d : MsgData) (st : SysState) : SysState :=
  match st.onmessage with
  | some Cb.messageFn => messageFnBody d st
  | _ => st

/-- Effect of `WebClient::new(ws)`: creates a fresh unbounded channel
(sender captured by `message_fn`, receiver stored in the client), builds
the `message_fn` and `close_fn` closures, and wraps
`Handlers::register(ws, Some(message_fn), Some(close_fn))` in an `Arc`
with strong count 1. -/
def WebClient.new (st : SysState) : SysState :=
  let st := { st with queue := [], consumerAlive := true, producerAlive := true }
  let st := Handlers.registerEffect (some .messageFn) (some .closeFn) st
  { st with handlersCount := 1 }

/-- Outcome of one call to `<WebConnection as Future>::poll`:
ready with a successfully built `WebClient` (whose effect on the state is
`WebClient.new`), ready with `Err(TungsteniteError::ConnectionClosed)`, or
pending. -/
inductive EstPoll
  | readyClient
  | readyErrClosed
  | pending
  deriving DecidableEq, Repr

/-- `<WebConnection as Future>::poll`, translated arm by arm.  In the
`CONNECTING` arm, `WakeFn::register` installs a fresh single-shot closure
capturing the current waker token into `onopen` and `onerror`; then the
assignment `self.wake_fn = Some(wake_fn)` stores the new `WakeFn` and —
because an assignment drops the previous content of the place after the
right-hand side has been evaluated — runs the `Drop` of the previously
stored `WakeFn` afterwards. -/
def WebConnection.poll (token : Nat) (st : SysState) : EstPoll × SysState :=
  match st.readyState with
  | .OPEN => (.readyClient, WebClient.new st)
  | .CLOSING => (.readyErrClosed, st)
  | .CLOSED => (.readyErrClosed, st)
  | .CONNECTING =>
      let st1 := WakeFn.registerEffect (some (.wake token)) st
      let old := st1.connWake
      let st2 := { st1 with connWake := some ⟨some token⟩ }
      let st3 := match old with
        | none => st2
        | some w => WakeFn.dropEffect w st2
      (.pending, st3)

/-- Effect of dropping the `WebConnection` future (which happens as soon
as the `await` in `connect` completes): its `wake_fn` field is dropped,
running `WakeFn::drop`. -/
def WebConnection.dropEffect (st : SysState) : SysState :=
  match st.connWake with
  | none => st
  | some w => WakeFn.dropEffect w { st with connWake := none }

/-- What `close()` returned, for `Handlers::drop`: `none` models `Ok(())`
and `some e` models `Err(e)` with the JS error value. -/
inductive JsError
  | mk (msg : String)
  deriving DecidableEq, Repr

/-- How a run of `Handlers::drop` ends: it either returns normally with
the resulting state, or panics (via `panic!(Error::from(e))`) with the
close error. -/
inductive TeardownOutcome
  | returned (st : SysState)
  | panicked (e : JsError)
  deriving DecidableEq, Repr

/-- `impl Drop for Handlers`, run on the real registration object (whose
`message_fn` and `close_fn` fields are both `Some`): clears `onmessage`,
then clears `onerror` and `onclose`; dropping the owned closures drops the
channel sender captured by `message_fn`; finally `self.ws.close()` is
issued, and if it returned an error the destructor panics. -/
def Handlers.dropRun (closeRes : Option JsError) (st : SysState) : TeardownOutcome :=
  let st := { st with onmessage := none }
  let st := { st with onerror := none, onclose := none }
  let st := { st with producerAlive := false, handlersCount := 0 }
  let st := { st with closeCalls := st.closeCalls + 1 }
  match closeRes with
  | none => .returned st
  | some e => .panicked e

/-- Dropping one strong reference to the `Arc<Handlers>`: only when it is
the last reference does `Handlers::drop` run (here on the success path of
`close()`); otherwise the count just decreases. -/
def Handlers.arcDrop (st : SysState) : SysState :=
  if st.handlersCount ≤ 1 then
    match Handlers.dropRun none st with
    | .returned st2 => st2
    | .panicked _ => st
  else { st with handlersCount := st.handlersCount - 1 }

/-- Effect of dropping the `WebClientSink` adapter: it owns one `Arc`
reference to the handlers. -/
def WebClientSink.drop (st : SysState) : SysState :=
  Handlers.arcDrop st

/-- Effect of dropping the `WebClientStream` adapter: it owns one `Arc`
reference to the handlers and the channel receiver. -/
def WebClientStream.drop (st : SysState) : SysState :=
  let st := Handlers.arcDrop st
  { st with consumerAlive := false }

/-- Result of `<WebClientStream as Stream>::poll_next`. -/
inductive StreamPoll
  | ready (item : Option QItem)
  | pending
  deriving DecidableEq, Repr

/-- `<WebClientStream as Stream>::poll_next`, delegating to
`rx.poll_next`.  Host model of the unbounded receiver: a buffered item is
yielded at once in arrival order; an empty buffer is pending while the
sender is alive and yields `none` (end of stream) once the sender has been
dropped. -/
def WebClientStream.pollNext (st : SysState) : StreamPoll × SysState :=
  match st.queue with
  | x :: rest => (.ready (some x), { st with queue := rest })
  | [] => if st.producerAlive then (.pending, st) else (.ready none, st)

/-- Result of the `Poll`-returning sink methods: ready with `none` for
`Ok(())`, ready with `some e` for `Err(e)`, or pending. -/
inductive SinkPoll
  | ready (e : Option TrError)
  | pending
  deriving DecidableEq, Repr

/-- `<WebClientSink as Sink>::poll_ready`: always returns `Poll::Ready`,
with `Ok(())` when the handle is `OPEN` and
`Err(TungsteniteError::ConnectionClosed)` otherwise. -/
def WebClientSink.pollReady (st : SysState) : SinkPoll :=
  .ready (if st.readyState = .OPEN then none else some .connectionClosed)

/-- `<WebClientSink as Sink>::poll_flush`: textually the same dispatch as
`poll_ready` — always `Poll::Ready`, `Ok(())` when `OPEN`, otherwise
`Err(TungsteniteError::ConnectionClosed)`. -/
def WebClientSink.pollFlush (st : SysState) : SinkPoll :=
  .ready (if st.readyState = .OPEN then none else some .connectionClosed)

/-- `<WebClientSink as Sink>::poll_close`: always `Poll::Ready(Ok(()))`. -/
def WebClientSink.pollClose (_st : SysState) : SinkPoll :=
  .ready none

/-- Host model of `ws.send_with_u8_array(&data[..])` on an open socket:
hands the host exactly one outgoing frame holding exactly the given
bytes. -/
def Ws.sendWithU8Array (data : List Nat) (st : SysState) : SysState :=
  { st with outFrames := st.outFrames ++ [data] }

/-- `<WebClientSink as Sink>::start_send`: when the handle state is
`OPEN`, forwards the buffer through `send_with_u8_array` and returns
`Ok(())`; otherwise returns `Err(TungsteniteError::ConnectionClosed)`.  A
plain synchronous function: it returns `Result`, not `Poll`, so it can
neither block nor suspend. -/
def WebClientSink.startSend (data : List Nat) (st : SysState) :
    Option TrError × SysState :=
  if st.readyState = .OPEN then (none, Ws.sendWithU8Array data st)
  else (some .connectionClosed, st)

/-- A `tungstenite::Message`, as matched on by the closure passed to
`sink.with` in `connect`. -/
inductive WsMessage
  | text (s : String)
  | binary (b : List Nat)
  | ping (b : List Nat)
  | pong (b : List Nat)
  | closeMsg
  deriving DecidableEq, Repr

/-- Result of the `sink.with` closure in `connect`: the payload bytes
forwarded to the sink, or the `unreachable!()` branch taken for any
non-binary message ("this sink supports only binary data"). -/
inductive SinkMapResult
  | forwarded (b : List Nat)
  | unreachableBranch
  deriving DecidableEq, Repr

/-- The closure passed to `sink.with` in `connect`: `Message::Binary(data)`
is forwarded as the payload; every other message kind hits
`unreachable!()`. -/
def messagesSinkClosure : WsMessage → SinkMapResult
  | .binary d => .forwarded d
  | _ => .unreachableBranch

/-- The state reached by `connect` once the host has fired the open event,
following the source step by step: the future is polled once while the
socket is `CONNECTING` (arming the wake closure with token 0); the host
fires the open event (the wake closure unregisters itself and wakes token
0); the awoken task polls again with a fresh waker token, now hitting the
`OPEN` arm and running `WebClient::new`; the completed `WebConnection`
future is dropped at the end of the `await` statement; the sink and the
stream each clone the `Arc<Handlers>`, and the `WebClient` binding
(partially moved, but still owning its `handlers` field) is dropped at the
end of `connect`. -/
def connectEstablished : SysState :=
  let s1 := (WebConnection.poll 0 WebSocket.newState).2
  let s2 := hostOpen s1
  let s3 := (WebConnection.poll 1 s2).2
  let s4 := WebConnection.dropEffect s3
  let s5 := { s4 with handlersCount := s4.handlersCount + 1 }
  let s6 := { s5 with handlersCount := s5.handlersCount + 1 }
  Handlers.arcDrop s6

/-- The state after two consecutive `poll` calls (waker tokens 0 then 1)
while the socket is still `CONNECTING`: the scenario of overlapping
establishment suspension attempts. -/
def twoPollsState : SysState :=
  (WebConnection.poll 1 (WebConnection.poll 0 WebSocket.newState).2).2

/-- Delivering a list of binary frames from the host, in order. -/
def deliverAll (msgs : List (List Nat)) (st : SysState) : SysState :=
  msgs.foldl (fun s m => hostMessage (.arrayBuffer m) s) st

/-- Polling the inbound stream a given number of times, collecting the
results in order. -/
def pollSeq : Nat → SysState → List StreamPoll × SysState
  | 0, st => ([], st)
  | n + 1, st =>
      ((WebClientStream.pollNext st).1
         :: (pollSeq n (WebClientStream.pollNext st).2).1,
       (pollSeq n (WebClientStream.pollNext st).2).2)

/-! ## Helper lemmas -/

/-- Delivering one binary frame while the message callback is registered
and the receiver is alive appends exactly one success item with exactly
those bytes. -/
theorem hostMessage_binary (m : List Nat) (st : SysState)
    (h1 : st.onmessage = some Cb.messageFn) (h2 : st.consumerAlive = true) :
    hostMessage (MsgData.arrayBuffer m) st
      = { st with queue := st.queue ++ [QItem.ok m] } := by
  simp [hostMessage, h1, messageFnBody, txSend, h2, uint8ArrayNew]

/-- Delivering a list of binary frames appends the corresponding success
items in arrival order, touching nothing else. -/
theorem deliverAll_queue (msgs : List (List Nat)) :
    ∀ st : SysState, st.onmessage = some Cb.messageFn → st.consumerAlive = true →
      deliverAll msgs st = { st with queue := st.queue ++ msgs.map QItem.ok } := by
  induction msgs with
  | nil =>
      intro st h1 h2
      simp [deliverAll]
  | cons m ms ih =>
      intro st h1 h2
      have hstep := hostMessage_binary m st h1 h2
      have hunfold : deliverAll (m :: ms) st
          = deliverAll ms (hostMessage (MsgData.arrayBuffer m) st) := rfl
      rw [hunfold, hstep, ih _ (by simp [h1]) (by simp [h2])]
      simp

/-- Draining the stream: polling it as many times as the queue has items
yields exactly those items in order and leaves the queue empty. -/
theorem pollSeq_drain (q : List QItem) :
    ∀ st : SysState, st.queue = q →
      pollSeq q.length st
        = (q.map fun x => StreamPoll.ready (some x), { st with queue := [] }) := by
  induction q with
  | nil =>
      intro st h
      simp only [List.length_nil, List.map_nil, pollSeq]
      rw [← h]
  | cons x rest ih =>
      intro st h
      have hpoll : WebClientStream.pollNext st
          = (.ready (some x), { st with queue := rest }) := by
        simp [WebClientStream.pollNext, h]
      simp only [List.length_cons, pollSeq, hpoll]
      rw [ih _ (by simp)]
      simp

/-! ## The claims -/

/-- Claim C1 (code bug): after a second suspension attempt while the
socket is still connecting, the wake-callback slot is empty and the open
event wakes nobody.  The second `poll` call does install its closure, but
the assignment `self.wake_fn = Some(wake_fn)` then drops the superseded
`WakeFn`, whose destructor unconditionally clears `onopen` and `onerror`
— wiping the registration installed a moment earlier.  The superseded
registration indeed never fires, but neither does the final one: the open
event finds both slots empty and no waker token is ever woken, so the
connection attempt hangs (contradicting the comment in the source that
the last waker must be notified). -/
theorem superseded_wakefn_drop_clears_rearm :
    twoPollsState.onopen = none ∧ twoPollsState.onerror = none
      ∧ (hostOpen twoPollsState).woken = [] := by
  decide

/-- Claim C7 (code bug): the state dispatch of `WebConnection::poll` is as
specified — `OPEN` resolves with a client, `CLOSING` and `CLOSED` resolve
with a connection-closed failure, `CONNECTING` stays pending — and the
first suspension attempt does install the single-shot opened/errored pair
holding the current token; but a second attempt, contrary to the claim,
leaves no callback pair installed at all, because tearing down the prior
registration (the drop of the old `WakeFn` inside the assignment) runs
after the new installation and clears both slots. -/
theorem establishment_poll_dispatch :
    (WebConnection.poll 0 { WebSocket.newState with readyState := .OPEN }).1
        = .readyClient
      ∧ (WebConnection.poll 0 { WebSocket.newState with readyState := .CLOSING }).1
        = .readyErrClosed
      ∧ (WebConnection.poll 0 { WebSocket.newState with readyState := .CLOSED }).1
        = .readyErrClosed
      ∧ (WebConnection.poll 0 WebSocket.newState).1 = .pending
      ∧ (WebConnection.poll 0 WebSocket.newState).2.onopen = some (Cb.wake 0)
      ∧ (WebConnection.poll 0 WebSocket.newState).2.onerror = some (Cb.wake 0)
      ∧ twoPollsState.onopen = none ∧ twoPollsState.onerror = none := by
  decide

/-- Claim C2, counterexample: firing the close event on an established
connection issues a close on the handle immediately — from within the
callback, while both adapters are still alive (`handlersCount = 2`) — and
after both adapters are then dropped the handle has been closed twice,
not exactly once. -/
theorem close_issued_twice_and_from_within_callback :
    (hostClose connectEstablished).closeCalls = 1
      ∧ (hostClose connectEstablished).handlersCount = 2
      ∧ (WebClientSink.drop (WebClientStream.drop
            (hostClose connectEstablished))).closeCalls = 2
      ∧ (WebClientSink.drop (WebClientStream.drop
            (hostClose connectEstablished))).closeCalls ≠ 1 := by
  decide

/-- Claim C2, amended: the close operation is issued once when the last
owning adapter is destroyed (dropping the first of the two `Arc`
references issues no close; dropping the second does), and additionally
once each time the close/error callback fires, because the callback tears
its registrations down through a temporary `Handlers` value whose
destructor also closes the handle.  Only in a lifetime in which the
close/error callback never fires is the handle closed exactly once, at
last-adapter destruction. -/
theorem close_once_at_last_drop_plus_once_per_close_event :
    (∀ st : SysState, (closeFnBody st).closeCalls = st.closeCalls + 1)
      ∧ (∀ st : SysState, st.handlersCount = 2 →
          (Handlers.arcDrop st).closeCalls = st.closeCalls
            ∧ (Handlers.arcDrop (Handlers.arcDrop st)).closeCalls
                = st.closeCalls + 1)
      ∧ (WebClientSink.drop (WebClientStream.drop connectEstablished)).closeCalls
          = 1 := by
  refine ⟨fun st => rfl, fun st h => ⟨?_, ?_⟩, by decide⟩
  · simp [Handlers.arcDrop, h]
  · simp [Handlers.arcDrop, h, Handlers.dropRun]

/-- Witness for the amended claim C2, at the established-connection
state. -/
theorem close_once_at_last_drop_witness :
    (closeFnBody connectEstablished).closeCalls
        = connectEstablished.closeCalls + 1
      ∧ (Handlers.arcDrop connectEstablished).closeCalls
        = connectEstablished.closeCalls
      ∧ (Handlers.arcDrop (Handlers.arcDrop connectEstablished)).closeCalls
        = connectEstablished.closeCalls + 1 :=
  ⟨close_once_at_last_drop_plus_once_per_close_event.1 connectEstablished,
   (close_once_at_last_drop_plus_once_per_close_event.2.1 connectEstablished rfl).1,
   (close_once_at_last_drop_plus_once_per_close_event.2.1 connectEstablished rfl).2⟩

/-- Claim C3, counterexample: firing the error event on the established
connection pushes nothing into the inbound queue — the queue stays empty
and the consumer is left pending, observing neither a failure item nor an
end of sequence. -/
theorem error_event_pushes_no_item_concretely :
    (hostError connectEstablished).queue = []
      ∧ (WebClientStream.pollNext (hostError connectEstablished)).1
        = StreamPoll.pending := by
  decide

/-- Claim C3, amended: no failure item is ever pushed into the inbound
queue by an error event.  After establishment the `onerror` slot has
already been cleared (the drop of the completed `WebConnection` future
wiped it), so the error event runs no callback at all; and the close/error
callback, where it does run, only retires the registrations and closes
the handle — it never touches the queue. -/
theorem error_event_pushes_no_failure_item :
    connectEstablished.onerror = none
      ∧ (∀ st : SysState, st.onerror = none → hostError st = st)
      ∧ (∀ st : SysState, (closeFnBody st).queue = st.queue) := by
  refine ⟨rfl, fun st h => ?_, fun st => rfl⟩
  simp [hostError, h]

/-- Witness for the amended claim C3, at the established-connection
state. -/
theorem error_event_pushes_no_failure_item_witness :
    hostError connectEstablished = connectEstablished
      ∧ (closeFnBody connectEstablished).queue = connectEstablished.queue :=
  ⟨error_event_pushes_no_failure_item.2.1 connectEstablished rfl,
   error_event_pushes_no_failure_item.2.2 connectEstablished⟩

/-- Claim C4, counterexample: the peer sends the frames `[1]` and `[2]`
and then closes; the read side yields the two items in order but the
third poll is pending — the sequence has not ended, because the queue
sender is owned by the `Handlers` closures, which are kept alive by the
adapters themselves, not by the retired registrations. -/
theorem close_event_does_not_end_stream :
    (pollSeq 3 (hostClose (deliverAll [[1], [2]] connectEstablished))).1
      = [StreamPoll.ready (some (QItem.ok [1])),
         StreamPoll.ready (some (QItem.ok [2])),
         StreamPoll.pending] := by
  decide

/-- Claim C4, amended: for every sequence of binary messages delivered by
the host before the close event, the read side yields exactly those items
in the same order with byte-identical content — nothing is reordered,
dropped, coalesced or duplicated — but after the close event the sequence
does not end: once the queue is drained the stream is pending (the
producer side is still alive inside the `Arc<Handlers>` held by the
adapters), not terminated. -/
theorem messages_in_order_but_close_does_not_end_stream
    (msgs : List (List Nat)) :
    (hostClose (deliverAll msgs connectEstablished)).queue = msgs.map QItem.ok
      ∧ (pollSeq msgs.length (hostClose (deliverAll msgs connectEstablished))).1
        = msgs.map (fun m => StreamPoll.ready (some (QItem.ok m)))
      ∧ (WebClientStream.pollNext
          (pollSeq msgs.length
            (hostClose (deliverAll msgs connectEstablished))).2).1
        = StreamPoll.pending := by
  have hdel : deliverAll msgs connectEstablished
      = { connectEstablished with queue := msgs.map QItem.ok } := by
    simpa using deliverAll_queue msgs connectEstablished rfl rfl
  rw [hdel]
  have hdrain := pollSeq_drain (msgs.map QItem.ok)
    (hostClose { connectEstablished with queue := msgs.map QItem.ok }) rfl
  rw [List.length_map] at hdrain
  refine ⟨rfl, ?_, ?_⟩
  · rw [hdrain]
    simp [List.map_map, Function.comp]
  · rw [hdrain]
    rfl

/-- Claim C5: a send with the handle open forwards the buffer as exactly
one discrete outgoing frame holding exactly those bytes and returns
success; a send with the handle in any other state fails immediately with
the connection-closed error and changes nothing.  `start_send` is a plain
synchronous function returning `Result`, so neither branch can block or
suspend. -/
theorem start_send_open_forwards_one_frame (st : SysState) (data : List Nat) :
    (st.readyState = .OPEN →
      WebClientSink.startSend data st
        = (none, { st with outFrames := st.outFrames ++ [data] }))
      ∧ (st.readyState ≠ .OPEN →
        WebClientSink.startSend data st = (some .connectionClosed, st)) := by
  constructor <;> intro h <;>
    simp [WebClientSink.startSend, Ws.sendWithU8Array, h]

/-- Witness for claim C5: sending on the freshly established (open)
connection and on a closed one. -/
theorem start_send_witness :
    WebClientSink.startSend [3, 7] connectEstablished
        = (none, { connectEstablished with
                    outFrames := connectEstablished.outFrames ++ [[3, 7]] })
      ∧ WebClientSink.startSend [3, 7] (hostClose connectEstablished)
        = (some .connectionClosed, hostClose connectEstablished) :=
  ⟨(start_send_open_forwards_one_frame connectEstablished [3, 7]).1 rfl,
   (start_send_open_forwards_one_frame (hostClose connectEstablished) [3, 7]).2
     (by decide)⟩

/-- Claim C6, counterexample: with the handle closed, `poll_flush` does
not return success — it fails with the connection-closed error, so flush
is not equivalent to a no-op success in every handle state. -/
theorem poll_flush_fails_when_not_open :
    WebClientSink.pollFlush (hostClose connectEstablished)
        = SinkPoll.ready (some TrError.connectionClosed)
      ∧ WebClientSink.pollFlush (hostClose connectEstablished)
        ≠ SinkPoll.ready none := by
  decide

/-- Claim C6, amended: `poll_flush` never suspends and performs no
buffered work, but it is not state-blind: it returns success when the
handle is open and fails immediately with the connection-closed error in
every other state. -/
theorem poll_flush_never_suspends_but_checks_state (st : SysState) :
    (st.readyState = .OPEN → WebClientSink.pollFlush st = .ready none)
      ∧ (st.readyState ≠ .OPEN →
          WebClientSink.pollFlush st = .ready (some .connectionClosed))
      ∧ WebClientSink.pollFlush st ≠ .pending := by
  refine ⟨fun h => by simp [WebClientSink.pollFlush, h],
    fun h => by simp [WebClientSink.pollFlush, h], by simp [WebClientSink.pollFlush]⟩

/-- Witness for the amended claim C6, at an open and at a closed state. -/
theorem poll_flush_witness :
    WebClientSink.pollFlush connectEstablished = SinkPoll.ready none
      ∧ WebClientSink.pollFlush (hostClose connectEstablished)
        = SinkPoll.ready (some TrError.connectionClosed) :=
  ⟨(poll_flush_never_suspends_but_checks_state connectEstablished).1 rfl,
   (poll_flush_never_suspends_but_checks_state
      (hostClose connectEstablished)).2.1 (by decide)⟩

/-- Claim C8, counterexample: a text frame carrying the string `hello`
arriving on the established connection is not surfaced as an error — it
is reinterpreted by the typed-array conversion into an empty payload and
pushed into the queue as a success item, which the consumer then receives
as ordinary payload bytes. -/
theorem text_frame_accepted_as_success_item :
    (hostMessage (MsgData.jsString "hello") connectEstablished).queue
        = [QItem.ok []]
      ∧ (WebClientStream.pollNext
          (hostMessage (MsgData.jsString "hello") connectEstablished)).1
        = StreamPoll.ready (some (QItem.ok [])) := by
  decide

/-- Claim C8, amended: the outbound side does send only binary frames —
the sink closure forwards a binary message payload unchanged and treats
every other message kind as unreachable — but an inbound non-binary
(text) frame is not surfaced as an error: the message callback never
inspects the frame kind, so the string data is reinterpreted by the
`Uint8Array` conversion (a run of zero bytes whose length is the JS
numeric value of the string, empty for non-numeric text) and pushed as a
success item. -/
theorem binary_only_outbound_but_text_inbound_reinterpreted :
    (∀ b, messagesSinkClosure (WsMessage.binary b) = SinkMapResult.forwarded b)
      ∧ (∀ m : WsMessage, (∀ b, m ≠ WsMessage.binary b) →
          messagesSinkClosure m = SinkMapResult.unreachableBranch)
      ∧ (∀ (s : String) (st : SysState),
          st.onmessage = some Cb.messageFn → st.consumerAlive = true →
          hostMessage (MsgData.jsString s) st
            = { st with queue :=
                  st.queue ++ [QItem.ok (List.replicate (jsToIndex s) 0)] }) := by
  refine ⟨fun b => rfl, fun m h => ?_, fun s st h1 h2 => ?_⟩
  · cases m with
    | text s => rfl
    | binary b => exact absurd rfl (h b)
    | ping b => rfl
    | pong b => rfl
    | closeMsg => rfl
  · simp [hostMessage, h1, messageFnBody, txSend, h2, uint8ArrayNew]

/-- Witness for the amended claim C8. -/
theorem binary_only_outbound_witness :
    messagesSinkClosure (WsMessage.binary [5]) = SinkMapResult.forwarded [5]
      ∧ messagesSinkClosure (WsMessage.text "hi") = SinkMapResult.unreachableBranch
      ∧ hostMessage (MsgData.jsString "hello") connectEstablished
        = { connectEstablished with
              queue := connectEstablished.queue
                ++ [QItem.ok (List.replicate (jsToIndex "hello") 0)] } :=
  ⟨binary_only_outbound_but_text_inbound_reinterpreted.1 [5],
   binary_only_outbound_but_text_inbound_reinterpreted.2.1 (WsMessage.text "hi")
     (fun b => by simp),
   binary_only_outbound_but_text_inbound_reinterpreted.2.2 "hello"
     connectEstablished rfl rfl⟩

/-- Claim C9: when `close()` fails during the final teardown in
`Handlers::drop`, the destructor panics with the converted error — the
run ends in the `panicked` outcome, never in a normal return, so the
failure is neither surfaced as a recoverable error nor silently
ignored. -/
theorem handlers_drop_close_failure_panics (st : SysState) (e : JsError) :
    Handlers.dropRun (some e) st = TeardownOutcome.panicked e := rfl

/-- Claim C10: with the receiver of the inbound queue dropped while the
message callback is still registered, an arriving frame is silently
discarded — the channel send fails, the callback discards the failure,
the state is unchanged and no panic occurs (the callback body is total
and returns normally). -/
theorem message_after_receiver_drop_is_discarded (d : MsgData) (st : SysState)
    (h : st.consumerAlive = false) :
    txSend (QItem.ok (uint8ArrayNew d)) st = SendResult.sendError
      ∧ messageFnBody d st = st := by
  refine ⟨by simp [txSend, h], by simp [messageFnBody, txSend, h]⟩

/-- Witness for claim C10: a frame arriving after the stream adapter (and
with it the receiver) has been dropped. -/
theorem message_after_receiver_drop_witness :
    txSend (QItem.ok (uint8ArrayNew (MsgData.arrayBuffer [9])))
        (WebClientStream.drop connectEstablished) = SendResult.sendError
      ∧ messageFnBody (MsgData.arrayBuffer [9])
          (WebClientStream.drop connectEstablished)
        = WebClientStream.drop connectEstablished :=
  message_after_receiver_drop_is_discarded (MsgData.arrayBuffer [9])
    (WebClientStream.drop connectEstablished) rfl
